import Mathlib

/-!
Shallow embedding of the mmap example driver (src/driver/my_mmap_drv.c) and
verification of its specified behaviour.

The driver exposes a misc device whose open handler allocates a control block
(struct mmap_info) and one zeroed page, writes a fixed message followed by the
dentry name into the page, and whose mmap handler installs a vm_operations
table {my_vma_open, my_vma_close, my_vma_nopage} on the vma.  The embedding
below translates each of those C functions into a Lean function over explicit
state records; machine addresses are Nat, the reference counter is Int (the C
field is a signed int), and allocation outcomes are made explicit parameters.
-/

namespace MyMmapDrv

/-- PAGE_SIZE on the modelled platform (4 KiB pages). -/
def PAGE_SIZE : Nat := 4096

/-- Fault-handler error code VM_FAULT_SIGBUS (bit 0x0002 in Linux). -/
def VM_FAULT_SIGBUS : Nat := 2

/-- Flag VM_DONTEXPAND. -/
def VM_DONTEXPAND : Nat := 0x00000040

/-- Flag VM_DONTDUMP. -/
def VM_DONTDUMP : Nat := 0x04000000

/-- Translation of: const char *msg = "My mmap options implement, this is file: ". -/
def msg : String := "My mmap options implement, this is file: "

/-- Byte list of msg, as the memcpy source operand strlen(msg) bytes long. -/
def msgChars : List Char := msg.data

/-- Zero byte, the content of a freshly zeroed page. -/
def zeroByte : Char := Char.ofNat 0

/-- Translation of memcpy(dst + off, src, src.length) acting on a byte store
modelled as a function from offsets to bytes.  Offsets are absolute within the
page allocation; the write is not bounded by the page size, exactly as the C
memcpy is not. -/
def memcpy (dst : Nat → Char) (off : Nat) (src : List Char) : Nat → Char :=
  fun i => if off ≤ i ∧ i < off + src.length then src.getD (i - off) zeroByte else dst i

/-- Content of a page returned by get_zeroed_page: all zero bytes. -/
def zeroedPage : Nat → Char := fun _ => zeroByte

/-- Byte store produced by the two memcpy calls in my_open: first
memcpy(data, msg, strlen(msg)), then
memcpy(data + strlen(msg), name, strlen(name)). -/
def openPage (name : List Char) : Nat → Char :=
  memcpy (memcpy zeroedPage 0 msgChars) msgChars.length name

/-- Total number of bytes the two memcpy calls in my_open write, starting at
offset 0 of the page: strlen(msg) + strlen(name). -/
def bytesWritten (name : List Char) : Nat := msgChars.length + name.length

/-- A physical page, identified by its byte content. -/
structure Page where
  content : Nat → Char

/-- Translation of struct mmap_info: data is the page pointer returned by
get_zeroed_page (none models a NULL pointer), ref is the int reference count. -/
structure MmapInfo where
  data : Option Page
  ref : Int

/-- Relevant fields of struct vm_area_struct.  vm_ops records which operations
table is installed; vm_private_data holds the mmap_info the driver stored. -/
inductive VmOperationsStruct
  | my_vm_ops

structure VmAreaStruct where
  vm_start : Nat
  vm_end : Nat
  vm_flags : Nat
  vm_ops : Option VmOperationsStruct
  vm_private_data : MmapInfo

/-- Relevant fields of struct vm_fault: the faulting virtual address and the
page slot the handler fills in on success. -/
structure VmFault where
  virtual_address : Nat
  page : Option Page

/-- Relevant field of struct file: the private_data set by my_open. -/
structure File where
  private_data : MmapInfo

/-- Translation of my_vma_open: info->ref++ (plus a trace print). -/
def my_vma_open (vma : VmAreaStruct) : VmAreaStruct :=
  { vma with vm_private_data :=
      { vma.vm_private_data with ref := vma.vm_private_data.ref + 1 } }

/-- Translation of my_vma_close: info->ref-- (plus a trace print). -/
def my_vma_close (vma : VmAreaStruct) : VmAreaStruct :=
  { vma with vm_private_data :=
      { vma.vm_private_data with ref := vma.vm_private_data.ref - 1 } }

/-- Observable outcome of my_vma_nopage: the returned error code, the value of
vmf->page afterwards, and how many times get_page was called. -/
structure NopageResult where
  err : Nat
  page : Option Page
  getPageCalls : Nat

/-- Translation of my_vma_nopage.  The C body is a do-while(0) with three
early exits: (1) !vma or vmf->virtual_address > vma->vm_end gives
VM_FAULT_SIGBUS; (2) !info->data gives VM_FAULT_SIGBUS; otherwise (3)
page = virt_to_page(info->data); get_page(page); vmf->page = page; return 0.
On the error paths vmf->page is never assigned. -/
def my_vma_nopage (vma : Option VmAreaStruct) (vmf : VmFault) : NopageResult :=
  match vma with
  | none => { err := VM_FAULT_SIGBUS, page := vmf.page, getPageCalls := 0 }
  | some v =>
    if vmf.virtual_address > v.vm_end then
      { err := VM_FAULT_SIGBUS, page := vmf.page, getPageCalls := 0 }
    else
      match v.vm_private_data.data with
      | none => { err := VM_FAULT_SIGBUS, page := vmf.page, getPageCalls := 0 }
      | some p => { err := 0, page := some p, getPageCalls := 1 }

/-- Nondeterministic inputs of my_open: whether kmalloc succeeds, the residual
bits in the uninitialized ref field of the kmalloc block (kmalloc does not
zero memory and my_open never writes info->ref), and whether get_zeroed_page
succeeds. -/
structure AllocEnv where
  kmallocOk : Bool
  junkRef : Int
  pageOk : Bool

/-- Outcome of my_open: crash models an unhandled NULL-pointer dereference;
ok carries the return value and the mmap_info stored in filp->private_data. -/
inductive OpenOutcome
  | crash
  | ok (ret : Int) (info : MmapInfo)

/-- Translation of my_open.  The C code checks neither kmalloc nor
get_zeroed_page: if kmalloc returns NULL the store info->data dereferences a
NULL pointer, and if get_zeroed_page returns 0 the first memcpy writes through
a NULL pointer; both are modelled as crash.  On the path where both
allocations succeed the function writes msg and the dentry name into the page,
stores info in filp->private_data, leaves info->ref holding the uninitialized
kmalloc residue, and returns 0. -/
def my_open (env : AllocEnv) (name : List Char) : OpenOutcome :=
  if env.kmallocOk = false then OpenOutcome.crash
  else if env.pageOk = false then OpenOutcome.crash
  else OpenOutcome.ok 0 { data := some { content := openPage name }, ref := env.junkRef }

/-- Translation of my_mmap: install my_vm_ops, or VM_DONTEXPAND and
VM_DONTDUMP into vm_flags, copy filp->private_data into vma->vm_private_data,
call my_vma_open(vma), and return 0. -/
def my_mmap (filp : File) (vma : VmAreaStruct) : Int × VmAreaStruct :=
  let vma1 := { vma with
    vm_ops := some VmOperationsStruct.my_vm_ops,
    vm_flags := vma.vm_flags ||| (VM_DONTEXPAND ||| VM_DONTDUMP),
    vm_private_data := filp.private_data }
  (0, my_vma_open vma1)

/-- Lifecycle notifications the platform can deliver to an established vma:
a duplication (vm_ops->open) or a teardown (vm_ops->close). -/
inductive VmaEvent
  | evOpen
  | evClose
deriving DecidableEq

/-- Dispatch of one notification through the installed my_vm_ops table. -/
def applyEvent (vma : VmAreaStruct) : VmaEvent → VmAreaStruct
  | VmaEvent.evOpen => my_vma_open vma
  | VmaEvent.evClose => my_vma_close vma

/-- Left-to-right delivery of a list of notifications. -/
def runEvents (vma : VmAreaStruct) : List VmaEvent → VmAreaStruct
  | [] => vma
  | e :: t => runEvents (applyEvent vma e) t

/-- Number of open (duplication) notifications in a list. -/
def countOpen : List VmaEvent → Nat
  | [] => 0
  | VmaEvent.evOpen :: t => countOpen t + 1
  | VmaEvent.evClose :: t => countOpen t

/-- Number of close (teardown) notifications in a list. -/
def countClose : List VmaEvent → Nat
  | [] => 0
  | VmaEvent.evOpen :: t => countClose t
  | VmaEvent.evClose :: t => countClose t + 1

/-- Decidable form of the admissibility condition on a notification sequence:
in every prefix, the number of closes is at most 1 plus the number of opens. -/
def closesBounded (evs : List VmaEvent) : Bool :=
  (List.range (evs.length + 1)).all fun k =>
    decide (countClose (evs.take k) ≤ 1 + countOpen (evs.take k))

/-- Running a notification list moves the reference count by the number of
opens minus the number of closes; no other state enters the count. -/
theorem runEvents_ref (l : List VmaEvent) : ∀ vma : VmAreaStruct,
    (runEvents vma l).vm_private_data.ref
      = vma.vm_private_data.ref + (countOpen l : Int) - (countClose l : Int) := by
  induction l with
  | nil => intro vma; simp [runEvents, countOpen, countClose]
  | cons e t ih =>
    intro vma
    cases e
    · rw [runEvents, ih]
      simp only [applyEvent, my_vma_open, countOpen, countClose]
      push_cast
      ring
    · rw [runEvents, ih]
      simp only [applyEvent, my_vma_close, countOpen, countClose]
      push_cast
      ring

/-- Fixed concrete page used by concrete test states. -/
def pg0 : Page := { content := fun _ => Char.ofNat 65 }

/-- Concrete established vma: one page mapped at [4096, 8192), backing page
allocated, reference count 1 (the value the spec assigns after onCreate). -/
def vmaA : VmAreaStruct :=
  { vm_start := 4096
    vm_end := 8192
    vm_flags := VM_DONTEXPAND ||| VM_DONTDUMP
    vm_ops := some VmOperationsStruct.my_vm_ops
    vm_private_data := { data := some pg0, ref := 1 } }

/-- Concrete vma whose reference count is already 0. -/
def vmaZero : VmAreaStruct :=
  { vm_start := 4096
    vm_end := 8192
    vm_flags := VM_DONTEXPAND ||| VM_DONTDUMP
    vm_ops := some VmOperationsStruct.my_vm_ops
    vm_private_data := { data := some pg0, ref := 0 } }

/-- Concrete vma state before my_mmap configures it. -/
def vmaB : VmAreaStruct :=
  { vm_start := 4096
    vm_end := 8192
    vm_flags := 0
    vm_ops := none
    vm_private_data := { data := none, ref := 0 } }

/-- Concrete fault record with an in-range address and empty page slot. -/
def vmf0 : VmFault := { virtual_address := 4096, page := none }

/-- Concrete dentry name of the opened device file. -/
def devName : List Char := "dev0".data

/-- Allocation environment where both allocations succeed and the kmalloc
block arrives with residue 5 in the ref field. -/
def envJunk : AllocEnv := { kmallocOk := true, junkRef := 5, pageOk := true }

/-- Control block produced by my_open under envJunk with name devName. -/
def infoJunk : MmapInfo := { data := some { content := openPage devName }, ref := 5 }

/-- Allocation environment where get_zeroed_page fails. -/
def envNoPage : AllocEnv := { kmallocOk := true, junkRef := 0, pageOk := false }

/-- Allocation environment where kmalloc fails. -/
def envNoKmalloc : AllocEnv := { kmallocOk := false, junkRef := 0, pageOk := true }

/-- Concrete admissible notification sequence: one duplication, two teardowns. -/
def ex4 : List VmaEvent := [VmaEvent.evOpen, VmaEvent.evClose, VmaEvent.evClose]

/-- Helper: every position below n of a replicate list reads the replicated
element under getD. -/
theorem getD_replicate_of_lt (c d : Char) : ∀ n i : Nat, i < n →
    (List.replicate n c).getD i d = c := by
  intro n
  induction n with
  | zero => intro i h; omega
  | succ m ih =>
    intro i h
    cases i with
    | zero => simp [List.replicate]
    | succ j =>
      rw [List.replicate, List.getD_cons_succ]
      exact ih j (by omega)

/-- C1: my_vma_nopage signals VM_FAULT_SIGBUS exactly when the vma is absent,
the faulting address strictly exceeds vm_end, or the backing data pointer is
NULL; the claimed rejection of every address outside [vm_start, vm_end) does
not match the code, which never consults vm_start and accepts the address
equal to vm_end. -/
theorem nopage_sigbus_iff (vma : Option VmAreaStruct) (vmf : VmFault) :
    (my_vma_nopage vma vmf).err = VM_FAULT_SIGBUS ↔
      (vma = none ∨ ∃ v, vma = some v ∧
        (v.vm_end < vmf.virtual_address ∨ v.vm_private_data.data = none)) := by
  cases vma with
  | none => simp [my_vma_nopage]
  | some v =>
    simp only [my_vma_nopage]
    by_cases hgt : vmf.virtual_address > v.vm_end
    · simp [hgt]
    · cases hd : v.vm_private_data.data with
      | none => simp [hgt, hd]
      | some p =>
        simp only [if_neg hgt, hd]
        constructor
        · intro h0
          exact absurd h0 (by simp [VM_FAULT_SIGBUS])
        · rintro (h | ⟨w, hw, hcase⟩)
          · cases h
          · cases hw
            rcases hcase with h1 | h2
            · exact absurd h1 (by omega)
            · rw [hd] at h2; cases h2

/-- C1 counterexample: on the concrete region [4096, 8192) with an allocated
page, a fault at address 8192 (equal to the exclusive end, hence outside the
range) and a fault at address 0 (below the start) both resolve with no error
and bind the page, while the claim demands VM_FAULT_SIGBUS for both. -/
theorem nopage_out_of_range_resolves :
    vmaA.vm_start = 4096 ∧ vmaA.vm_end = 8192 ∧
    (my_vma_nopage (some vmaA) { virtual_address := 8192, page := none }).err = 0 ∧
    (my_vma_nopage (some vmaA) { virtual_address := 8192, page := none }).page = some pg0 ∧
    (my_vma_nopage (some vmaA) { virtual_address := 0, page := none }).err = 0 ∧
    (my_vma_nopage (some vmaA) { virtual_address := 0, page := none }).err ≠ VM_FAULT_SIGBUS :=
  ⟨rfl, rfl, rfl, rfl, rfl, by decide⟩

/-- C2: for a present vma whose resource has an allocated page, a fault at any
address inside [vm_start, vm_end) resolves with error code 0, binds exactly
the resource page into vmf->page, and calls get_page exactly once. -/
theorem nopage_in_range_resolves (v : VmAreaStruct) (vmf : VmFault) (p : Page)
    (hd : v.vm_private_data.data = some p)
    (_hlo : v.vm_start ≤ vmf.virtual_address)
    (hhi : vmf.virtual_address < v.vm_end) :
    (my_vma_nopage (some v) vmf).err = 0 ∧
    (my_vma_nopage (some v) vmf).page = some p ∧
    (my_vma_nopage (some v) vmf).getPageCalls = 1 := by
  have hgt : ¬ vmf.virtual_address > v.vm_end := by omega
  simp [my_vma_nopage, hgt, hd]

/-- C2 witness: the concrete established region resolves a fault at its start
address. -/
theorem nopage_in_range_resolves_witness :
    (my_vma_nopage (some vmaA) vmf0).err = 0 ∧
    (my_vma_nopage (some vmaA) vmf0).page = some pg0 ∧
    (my_vma_nopage (some vmaA) vmf0).getPageCalls = 1 :=
  nopage_in_range_resolves vmaA vmf0 pg0 rfl (by decide) (by decide)

/-- C3: my_open leaves info->ref holding the uninitialized kmalloc residue, so
after my_mmap the reference count is residue + 1, not 1.  With residue 5 the
count after the initial mapping is 6. -/
theorem mmap_ref_from_uninit :
    my_open envJunk devName = OpenOutcome.ok 0 infoJunk ∧
    (my_mmap { private_data := infoJunk } vmaB).2.vm_private_data.ref = 6 ∧
    (my_mmap { private_data := infoJunk } vmaB).2.vm_private_data.ref ≠ 1 :=
  ⟨rfl, rfl, by decide⟩

/-- C4: starting from a region whose reference count is 1 (the value the spec
assigns after onCreate), any notification sequence in which every prefix has
at most 1 + number-of-opens closes keeps the reference count nonnegative at
every prefix. -/
theorem refcount_nonneg (vma : VmAreaStruct) (evs : List VmaEvent)
    (h1 : vma.vm_private_data.ref = 1)
    (h2 : closesBounded evs = true) (k : Nat) :
    0 ≤ (runEvents vma (evs.take k)).vm_private_data.ref := by
  have hall := List.all_eq_true.mp h2
  have hbound : countClose (evs.take k) ≤ 1 + countOpen (evs.take k) := by
    by_cases hk : k ≤ evs.length
    · have hmem : k ∈ List.range (evs.length + 1) := List.mem_range.mpr (by omega)
      exact of_decide_eq_true (hall k hmem)
    · have hfull : evs.take k = evs := List.take_of_length_le (by omega)
      have hmem : evs.length ∈ List.range (evs.length + 1) :=
        List.mem_range.mpr (by omega)
      have h3 := of_decide_eq_true (hall evs.length hmem)
      rw [List.take_length] at h3
      rw [hfull]
      exact h3
  rw [runEvents_ref, h1]
  omega

/-- C4 witness: the sequence open, close, close is admissible from count 1 and
its full run ends nonnegative. -/
theorem refcount_nonneg_witness :
    0 ≤ (runEvents vmaA (ex4.take 3)).vm_private_data.ref :=
  refcount_nonneg vmaA ex4 rfl (by decide) 3

/-- C5 amended: my_vma_close performs the decrement unconditionally on every
state; it has no underflow detection, no error report, and no clamping, so a
close at reference count 0 produces -1. -/
theorem close_unconditional_decrement (vma : VmAreaStruct) :
    (my_vma_close vma).vm_private_data.ref = vma.vm_private_data.ref - 1 := rfl

/-- C5 counterexample: closing the concrete region whose reference count is
already 0 simply stores -1; the would-be underflow is neither detected nor
reported, contradicting the claim that the operation detects it rather than
performing an unconditional decrement. -/
theorem close_at_zero_underflows :
    vmaZero.vm_private_data.ref = 0 ∧
    (my_vma_close vmaZero).vm_private_data.ref = -1 :=
  ⟨rfl, rfl⟩

/-- C6: my_open performs no allocation-failure check.  If get_zeroed_page
fails the first memcpy dereferences the NULL data pointer, and if kmalloc
fails the store to info->data dereferences a NULL control-block pointer; in
both cases the open crashes instead of propagating a resource-exhaustion
error, and on no input does it return an error code. -/
theorem open_alloc_fail_crashes :
    my_open envNoPage devName = OpenOutcome.crash ∧
    my_open envNoKmalloc devName = OpenOutcome.crash :=
  ⟨rfl, rfl⟩

/-- C7 amended: the page after my_open holds the fixed message bytes at
offsets below strlen(msg), the bytes of the handle's own name at the next
strlen(name) offsets with no truncation whatsoever (a long name is written
past the page boundary), and zero bytes everywhere else. -/
theorem openPage_characterization (name : List Char) (i : Nat) :
    (i < msgChars.length → openPage name i = msgChars.getD i zeroByte) ∧
    (msgChars.length ≤ i → i < bytesWritten name →
      openPage name i = name.getD (i - msgChars.length) zeroByte) ∧
    (bytesWritten name ≤ i → openPage name i = zeroByte) := by
  refine ⟨fun h1 => ?_, fun h2 h3 => ?_, fun h4 => ?_⟩
  · have hn : ¬ (msgChars.length ≤ i ∧ i < msgChars.length + name.length) := by omega
    simp [openPage, memcpy, hn, h1]
  · have hy : msgChars.length ≤ i ∧ i < msgChars.length + name.length := by
      simp only [bytesWritten] at h3; omega
    simp [openPage, memcpy, hy]
  · simp only [bytesWritten] at h4
    have hn1 : ¬ (msgChars.length ≤ i ∧ i < msgChars.length + name.length) := by omega
    have hn2 : ¬ i < msgChars.length := by omega
    simp [openPage, memcpy, hn1, hn2, zeroedPage]

/-- C7 witness: with name dev0, offset 41 (just past the 41-byte message)
holds the first name byte. -/
theorem openPage_characterization_witness :
    openPage devName 41 = Char.ofNat 100 :=
  (openPage_characterization devName 41).2.1 (by decide) (by decide)

/-- C7 counterexample: with a 4060-byte name the two memcpy calls write 4101
bytes, exceeding PAGE_SIZE, and the byte at offset 4100 of the page store,
past the one-page boundary, holds a name byte; no truncation occurs. -/
theorem openPage_writes_past_page :
    bytesWritten (List.replicate 4060 (Char.ofNat 97)) > PAGE_SIZE ∧
    openPage (List.replicate 4060 (Char.ofNat 97)) 4100 = Char.ofNat 97 := by
  have hlen : msgChars.length = 41 := by decide
  constructor
  · rw [bytesWritten, List.length_replicate, hlen]
    decide
  · have hy : msgChars.length ≤ 4100 ∧
        4100 < msgChars.length + (List.replicate 4060 (Char.ofNat 97)).length := by
      rw [List.length_replicate, hlen]
      omega
    simp only [openPage, memcpy]
    rw [if_pos hy, hlen]
    exact getD_replicate_of_lt (Char.ofNat 97) zeroByte 4060 (4100 - 41) (by omega)

/-- C8: whenever my_vma_nopage returns VM_FAULT_SIGBUS, vmf->page is exactly
what it was on entry (no page is bound) and get_page is never called. -/
theorem nopage_sigbus_no_effects (vma : Option VmAreaStruct) (vmf : VmFault)
    (h : (my_vma_nopage vma vmf).err = VM_FAULT_SIGBUS) :
    (my_vma_nopage vma vmf).page = vmf.page ∧
    (my_vma_nopage vma vmf).getPageCalls = 0 := by
  cases vma with
  | none => exact ⟨rfl, rfl⟩
  | some v =>
    simp only [my_vma_nopage] at h ⊢
    by_cases hgt : vmf.virtual_address > v.vm_end
    · simp [hgt]
    · cases hd : v.vm_private_data.data with
      | none => simp [hgt, hd]
      | some p =>
        rw [if_neg hgt, hd] at h
        exact absurd h (by simp [VM_FAULT_SIGBUS])

/-- C8 witness: the absent-vma rejection leaves the fault record untouched. -/
theorem nopage_sigbus_no_effects_witness :
    (my_vma_nopage none vmf0).page = vmf0.page ∧
    (my_vma_nopage none vmf0).getPageCalls = 0 :=
  nopage_sigbus_no_effects none vmf0 rfl

/-- C9: my_mmap returns 0 on every input, installs my_vm_ops, sets
VM_DONTEXPAND and VM_DONTDUMP, binds the handle's control block, and records
the first interest by incrementing its reference count. -/
theorem my_mmap_succeeds (filp : File) (vma : VmAreaStruct) :
    (my_mmap filp vma).1 = 0 ∧
    (my_mmap filp vma).2.vm_ops = some VmOperationsStruct.my_vm_ops ∧
    (my_mmap filp vma).2.vm_flags = vma.vm_flags ||| (VM_DONTEXPAND ||| VM_DONTDUMP) ∧
    (my_mmap filp vma).2.vm_private_data.data = filp.private_data.data ∧
    (my_mmap filp vma).2.vm_private_data.ref = filp.private_data.ref + 1 :=
  ⟨rfl, rfl, rfl, rfl, rfl⟩

/-- C10: my_vma_open and my_vma_close change only the reference count; the
address range, the flags, the operations table, and the bound data page (hence
its content) are untouched by both. -/
theorem vma_open_close_frame (vma : VmAreaStruct) :
    (my_vma_open vma).vm_start = vma.vm_start ∧
    (my_vma_open vma).vm_end = vma.vm_end ∧
    (my_vma_open vma).vm_flags = vma.vm_flags ∧
    (my_vma_open vma).vm_ops = vma.vm_ops ∧
    (my_vma_open vma).vm_private_data.data = vma.vm_private_data.data ∧
    (my_vma_open vma).vm_private_data.ref = vma.vm_private_data.ref + 1 ∧
    (my_vma_close vma).vm_start = vma.vm_start ∧
    (my_vma_close vma).vm_end = vma.vm_end ∧
    (my_vma_close vma).vm_flags = vma.vm_flags ∧
    (my_vma_close vma).vm_ops = vma.vm_ops ∧
    (my_vma_close vma).vm_private_data.data = vma.vm_private_data.data ∧
    (my_vma_close vma).vm_private_data.ref = vma.vm_private_data.ref - 1 :=
  ⟨rfl, rfl, rfl, rfl, rfl, rfl, rfl, rfl, rfl, rfl, rfl, rfl⟩

end MyMmapDrv
